import Mathlib

/-!
Verification development for the Scapyfy repository: a shallow embedding of
the agent loop (src/logic/loop.py) and the network tool adapters
(src/logic/network_tools.py), with theorems settling the spec claims.

External collaborators (the chat-completion capability, the scapy send/receive
primitives, subprocess execution, the DNS resolver, and Python's json codec)
are modelled as explicit oracle parameters; everything the repository's own
code computes is translated directly from the source.
-/

/- ===================== general helpers ===================== -/

/-- Python `min(max(lo, x), hi)` on unbounded integers, the clamp idiom used
throughout network_tools.py. -/
def clampI (lo hi x : Int) : Int := min (max lo x) hi

/-- Python `str.split()` (no argument): split on whitespace runs, dropping
empty pieces. -/
def pySplit (s : String) : List String :=
  (s.split Char.isWhitespace).filter (fun p => !p.isEmpty)

/-- `arguments.split()` guarded by `if arguments:` — `None` or the empty
string contribute nothing. -/
def splitArguments : Option String → List String
  | none => []
  | some s => if s.isEmpty then [] else pySplit s

/-- Python `s.split(",")`: split on commas, keeping empty pieces
(structurally recursive so that concrete inputs evaluate). -/
def splitCommaAux : List Char → List Char → List (List Char)
  | [], acc => [acc.reverse]
  | c :: rest, acc =>
    if c = ',' then acc.reverse :: splitCommaAux rest []
    else splitCommaAux rest (c :: acc)

def splitComma (l : List Char) : List (List Char) := splitCommaAux l []

/-- Python `str.strip()` on a character list. -/
def pyStrip (l : List Char) : List Char :=
  ((l.dropWhile Char.isWhitespace).reverse.dropWhile Char.isWhitespace).reverse

/-- Value of a digit list read in base 10. -/
def digitsToNat (l : List Char) : Nat :=
  l.foldl (fun a c => a * 10 + (c.toNat - 48)) 0

/-- Python `int(s)` for a decimal string: strip whitespace, optional sign,
then digits; `none` models the raised `ValueError`.  (Digit-group
underscores and non-ASCII digits, accepted by CPython, are not modelled —
no claim depends on them.) -/
def pyInt (s : String) : Option Int :=
  match pyStrip s.toList with
  | [] => none
  | c :: rest =>
    if c = '-' then
      if !rest.isEmpty && rest.all Char.isDigit then some (-(digitsToNat rest : Int)) else none
    else if c = '+' then
      if !rest.isEmpty && rest.all Char.isDigit then some ((digitsToNat rest : Int)) else none
    else if (c :: rest).all Char.isDigit then some ((digitsToNat (c :: rest) : Int)) else none

/-- Python format spec `{s:n}`: left-justify, pad with spaces to width n. -/
def padTo (n : Nat) (s : String) : String :=
  s ++ String.mk (List.replicate (n - s.length) ' ')

/-- A single-quote character, used to reproduce Python `repr` of strings. -/
def sqChar : Char := Char.ofNat 39

/-- Python `repr` of a plain identifier-like string: wrapped in single quotes. -/
def pyQuote (s : String) : String := String.mk [sqChar] ++ s ++ String.mk [sqChar]

/-- Python `repr` of a list of strings, e.g. `['Ether', 'IP']`. -/
def pyListRepr (l : List String) : String :=
  "[" ++ String.intercalate (", ") (l.map pyQuote) ++ "]"

/- ===================== JSON values (json.loads output) ===================== -/

/-- The Python values `json.loads` can produce.  Parsing itself
(`json.loads` / `json.dumps`) is the `json` standard library, external to
the repository; the adapters receive its output, so the embedding takes the
parse result (`Except` of the `JSONDecodeError` message, or the value) as
an input. -/
inductive PyVal where
  | obj  (entries : List (String × PyVal))
  | arr  (elems : List PyVal)
  | str  (s : String)
  | num  (n : Int)
  | bool (b : Bool)
  | null

/-- Python type name of a non-dict `json.loads` result, as it appears in the
`AttributeError` raised by `layers.items()`. -/
def pyTypeTag : PyVal → String
  | .obj _ => "dict"
  | .arr _ => "list"
  | .str _ => "str"
  | .num _ => "int"
  | .bool _ => "bool"
  | .null => "NoneType"

/- ===================== Agent loop (src/logic/loop.py) ===================== -/

/-- Keyword arguments of a tool call: string keys to JSON-compatible values. -/
abbrev ToolArgs : Type := List (String × PyVal)

/-- A tool call produced by the capability: `{name, args, id}`
(loop.py lines 167–169). -/
structure ToolCall where
  name : String
  args : ToolArgs
  id   : String

/-- One scratchpad entry: an `AIMessage` recording a single requested tool
call, or a `ToolMessage` carrying the textual result tagged with the call
identifier (loop.py lines 163–165 and 196–198). -/
inductive ScratchEntry where
  | assistant (tc : ToolCall)
  | toolMsg (content : String) (tool_call_id : String)

/-- A capability response: final content and the (possibly empty) list of
requested tool calls. -/
structure ModelResponse where
  content    : String
  tool_calls : List ToolCall

/-- The chat-completion capability, opaque to the loop: given the scratchpad
it returns a response or raises (the `Except.error` side carries the
exception message caught at loop.py line 127). -/
abbrev Cap : Type := List ScratchEntry → Except String ModelResponse

/-- An adapter behind the registry: a function of the call's keyword
arguments that returns the stringified tool output or raises (the
`Except.error` side carries the exception message caught at loop.py
line 180). -/
abbrev ToolFun : Type := ToolArgs → Except String String

/-- A tool registry: name to adapter, `none` for an unknown name. -/
abbrev ToolMapT : Type := String → Option ToolFun

/-- `final_report.func` (network_tools.py lines 396–408): the identity on its
single `report` argument.  Any other argument shape raises a `TypeError`
when Python binds `**tool_args`; non-string report values are not modelled
(the tool schema declares `report: str`). -/
def final_report_fn : ToolFun
  | [("report", PyVal.str r)] => Except.ok r
  | _ => Except.error ("TypeError: final_report argument mismatch")

/-- The nine network adapters of `ALL_TOOLS`, as oracles: their bodies run
external processes and sockets, so the loop-level claims quantify over
their behaviour. -/
structure Adapters where
  send_packet      : ToolFun
  craft_packet_json : ToolFun
  ping_host        : ToolFun
  traceroute_host  : ToolFun
  nmap_scan        : ToolFun
  hping3_probe     : ToolFun
  quick_port_scan  : ToolFun
  arp_scan         : ToolFun
  dns_lookup_tool  : ToolFun

/-- `TOOL_MAP` (network_tools.py lines 625–626): the nine `ALL_TOOLS`
entries plus `final_report`, keyed by tool name. -/
def TOOL_MAP (A : Adapters) : ToolMapT := fun name =>
  if name = "send_packet" then some A.send_packet
  else if name = "craft_packet_json" then some A.craft_packet_json
  else if name = "ping_host" then some A.ping_host
  else if name = "traceroute_host" then some A.traceroute_host
  else if name = "nmap_scan" then some A.nmap_scan
  else if name = "hping3_probe" then some A.hping3_probe
  else if name = "quick_port_scan" then some A.quick_port_scan
  else if name = "arp_scan" then some A.arp_scan
  else if name = "dns_lookup_tool" then some A.dns_lookup_tool
  else if name = "final_report" then some final_report_fn
  else none

/-- Dispatch of one tool call (loop.py lines 171–183): unknown names become
the structured failure text `Unknown tool: {name}`; an adapter exception is
caught and becomes `Tool execution error: {e}`.  Returns
(tool_output, success flag, error field) exactly as logged. -/
def dispatch (tm : ToolMapT) (tc : ToolCall) : String × Bool × Option String :=
  match tm tc.name with
  | some f =>
    match f tc.args with
    | Except.ok out => (out, true, none)
    | Except.error e => ("Tool execution error: " ++ e, false, some e)
  | none => ("Unknown tool: " ++ tc.name, false, some ("Unknown tool"))

/-- The per-batch body of the loop (loop.py lines 162–201): for each call in
order, append the assistant entry, dispatch, append the tool-response
entry; if the call is named `final_report`, return its output immediately
(`some out`), skipping the rest of the batch. -/
def processBatch (tm : ToolMapT) : List ToolCall → List ScratchEntry → List ScratchEntry × Option String
  | [], pad => (pad, none)
  | tc :: rest, pad =>
    let d := dispatch tm tc
    let pad2 := (pad ++ [ScratchEntry.assistant tc]) ++ [ScratchEntry.toolMsg d.1 tc.id]
    if tc.name = "final_report" then (pad2, some d.1)
    else processBatch tm rest pad2

/-- Outcome of one `AgentExecutor.invoke` run: the returned string, the
number of capability (model) calls made, and the final scratchpad.  The
source returns only the string; the other two fields instrument the run so
that iteration-count and scratchpad claims can be stated. -/
structure RunOut where
  result : String
  calls  : Nat
  pad    : List ScratchEntry

/-- The iteration-ceiling message (loop.py line 203). -/
def maxIterMessage (n : Nat) : String :=
  "Maximum iterations (" ++ toString n ++ ") exceeded. Partial results may be available in logs."

/-- `AgentExecutor.invoke` (loop.py lines 116–203), fuelled by the remaining
iteration count.  A capability exception is caught and returned as the
`LLM invocation error:` text; a response without tool calls returns its
content (or the no-output sentinel when empty); otherwise the batch is
processed and, absent an early `final_report` return, the loop recurs. -/
def invokeAux (tm : ToolMapT) (cap : Cap) (maxIter : Nat) : Nat → List ScratchEntry → RunOut
  | 0, pad => ⟨maxIterMessage maxIter, 0, pad⟩
  | Nat.succ fuel, pad =>
    match cap pad with
    | Except.error e => ⟨"LLM invocation error: " ++ e, 1, pad⟩
    | Except.ok r =>
      match r.tool_calls with
      | [] =>
        ⟨if r.content = "" then "Agent completed without producing output" else r.content, 1, pad⟩
      | _ :: _ =>
        match processBatch tm r.tool_calls pad with
        | (pad2, some out) => ⟨out, 1, pad2⟩
        | (pad2, none) =>
          let o := invokeAux tm cap maxIter fuel pad2
          ⟨o.result, o.calls + 1, o.pad⟩

/-- `AgentExecutor.invoke` entry point: empty scratchpad, `max_iterations`
iterations available. -/
def invoke (tm : ToolMapT) (cap : Cap) (maxIter : Nat) : RunOut :=
  invokeAux tm cap maxIter maxIter []

/-- Number of assistant entries in a scratchpad = number of dispatched tool
calls recorded there. -/
def countAssistant (l : List ScratchEntry) : Nat :=
  (l.filter (fun e => match e with | ScratchEntry.assistant _ => true | _ => false)).length

/-- Outcome of `llm_crafter`: either the returned report text, or the single
wrapped `RuntimeError` raised to the caller. -/
inductive CrafterOutcome where
  | ok (text : String)
  | raisedRuntime (msg : String)

/-- `llm_crafter` (loop.py lines 212–252).  Resolving the capability
(constructing `AgentExecutor`, i.e. provider lookup and chat-model
creation) can raise; `executor.invoke` cannot (every exception inside it is
caught).  Any exception in the `try` block is re-raised as
`RuntimeError("Agent execution failed: {e}")`. -/
def llm_crafter (resolution : Except String Cap) (tm : ToolMapT) (maxIter : Nat) : CrafterOutcome :=
  match resolution with
  | Except.error e => CrafterOutcome.raisedRuntime ("Agent execution failed: " ++ e)
  | Except.ok cap => CrafterOutcome.ok ((invoke tm cap maxIter).result)

/- ===================== target validators (regex allow-lists) ===================== -/

/-- One character of `\w` in the patterns of network_tools.py, plus the
explicit `.` and `-`.  (`\w` is modelled as ASCII alphanumerics and
underscore; Python's unicode word characters are not modelled — no claim
involves them.) -/
def hostValidChar (c : Char) : Bool :=
  c.isAlphanum || c = '_' || c = '.' || c = '-'

/-- Nonempty and every character allowed. -/
def listValid (p : Char → Bool) (l : List Char) : Bool :=
  !l.isEmpty && l.all p

/-- Python `re`'s `$` also matches just before a single newline at the end
of the string, so a full `^[...]+$` match forgives exactly one trailing
newline.  Since none of the character classes below accepts a newline, a
full match of `^[...]+$` against `s` is exactly a class match against `s`
with one trailing newline removed — which this helper removes. -/
def stripTrailingNL : List Char → List Char
  | [] => []
  | [c] => if c = Char.ofNat 10 then [] else [c]
  | c :: rest => c :: stripTrailingNL rest

/-- `re.match(r'^[\w\.\-]+$', target)` — ping, traceroute, hping3_probe
(network_tools.py lines 125, 197, 416, 525). -/
def hostTargetValid (t : String) : Bool :=
  listValid hostValidChar (stripTrailingNL t.toList)

/-- `re.match(r'^[\w\.\-\/]+$', target)` — nmap_scan_direct (line 473). -/
def nmapValidChar (c : Char) : Bool := hostValidChar c || c = '/'

def nmapTargetValid (t : String) : Bool :=
  listValid nmapValidChar (stripTrailingNL t.toList)

/-- `re.match(r'^[\d\.]+$', target)` — quick_port_scan (line 257). -/
def ipv4Char (c : Char) : Bool := c.isDigit || c = '.'

def ipv4Valid (t : String) : Bool := listValid ipv4Char (stripTrailingNL t.toList)

def digitsNonempty (l : List Char) : Bool := !l.isEmpty && l.all Char.isDigit

/-- Tail of `^[\d\.]+/\d+$` after its (nonempty) first character: keep
consuming digits or dots, then one `/`, then one or more digits. -/
def arpTail : List Char → Bool
  | [] => false
  | c :: rest => if c = '/' then digitsNonempty rest else ipv4Char c && arpTail rest

/-- The body of `^[\d\.]+/\d+$`: a nonempty digits-and-dots prefix, one
slash, then nonempty digits. -/
def arpCore : List Char → Bool
  | [] => false
  | c :: rest => ipv4Char c && arpTail rest

/-- `re.match(r'^[\d\.]+/\d+$', network)` — arp_scan (line 301), with the
same single-trailing-newline allowance of `$`. -/
def arpNetworkValid (s : String) : Bool := arpCore (stripTrailingNL s.toList)

/-- `re.match(r'^[\d,\-]+$', ports)` — the port-list filter of
nmap_scan_direct (line 489). -/
def nmapPortsValid (p : String) : Bool :=
  listValid (fun c => c.isDigit || c = ',' || c = '-') p.toList

/-- Shell metacharacters, the class of characters the safety claim is about.
None of them is alphanumeric, `_`, `.`, `-`, `/`, a digit or a comma — and
none is a newline, the one character `$` forgives at the end of the
target (a trailing newline is therefore accepted by the source's regexes
and deliberately not listed here). -/
def shellMetachars : List Char :=
  [';', '|', '&', '$', '<', '>', '(', ')', '*', '?', ' ', '!', '~', '\\',
   Char.ofNat 34, sqChar, Char.ofNat 96, Char.ofNat 123, Char.ofNat 125, '[', ']', '#', '=',
   Char.ofNat 9]

/- ===================== external process oracle ===================== -/

/-- What `subprocess.run(cmd, capture_output=True, text=True, timeout=t)`
produced. -/
structure ProcResult where
  stdout     : String
  stderr     : String
  returncode : Int

/-- Outcome of one subprocess invocation: completion, `TimeoutExpired`
(with its rendering, for the handlers that stringify it), or any other
exception with its message. -/
inductive ProcOutcome where
  | completed (r : ProcResult)
  | timedOut (msg : String)
  | raised (msg : String)

/-- The subprocess oracle: argument vector and timeout to outcome. -/
abbrev ProcEnv : Type := List String → Int → ProcOutcome

/- ===================== ping (network_tools.py lines 411–465) ===================== -/

/-- The structured record `ping` returns.  The loss/RTT regex extraction of
lines 436–450 is not modelled (no claim refers to it); the fields kept are
the ones the claims mention. -/
structure PingResult where
  success    : Bool
  target     : String
  raw_output : String

/-- The argument vector `ping` hands to subprocess (lines 421–424), built
from the already-clamped count and timeout. -/
def pingCmd (count timeout : Int) (arguments : Option String) (target : String) : List String :=
  ["ping", "-c", toString count, "-W", toString timeout] ++ splitArguments arguments ++ [target]

/-- `ping` (lines 411–465): clamp count to 1–20 and timeout to 1–10, reject
targets failing the host regex with the `Invalid target format` record, and
otherwise run the command under `count * timeout + 5` seconds.  The second
component records the subprocess call made (`none` when rejected before any
process is spawned). -/
def pingRun (env : ProcEnv) (target : String) (count timeout : Int) (arguments : Option String) :
    PingResult × Option (List String × Int) :=
  let count2 := clampI 1 20 count
  let timeout2 := clampI 1 10 timeout
  if hostTargetValid target = false then
    (⟨false, target, "Invalid target format"⟩, none)
  else
    let cmd := pingCmd count2 timeout2 arguments target
    let tmo := count2 * timeout2 + 5
    match env cmd tmo with
    | ProcOutcome.completed r => (⟨r.returncode = 0, target, r.stdout⟩, some (cmd, tmo))
    | ProcOutcome.timedOut m => (⟨false, target, m⟩, some (cmd, tmo))
    | ProcOutcome.raised m => (⟨false, target, m⟩, some (cmd, tmo))

/-- The `ping_host` tool adapter (lines 93–109): delegate to `ping`, return
the stripped raw output on success and `Ping failed: ...` otherwise. -/
def ping_host (env : ProcEnv) (target : String) (count timeout : Int) (arguments : Option String) :
    String × Option (List String × Int) :=
  let r := pingRun env target count timeout arguments
  (if r.1.success then r.1.raw_output.trim else "Ping failed: " ++ r.1.raw_output, r.2)

/- ===================== traceroute (lines 522–579) ===================== -/

/-- The structured record `traceroute` returns; the hop-parsing of lines
541–570 is not modelled (no claim refers to it). -/
structure TracerouteResult where
  success    : Bool
  target     : String
  raw_output : String

/-- Argument vector of `traceroute` (lines 529–532), from the clamped hop
limit. -/
def tracerouteCmd (max_hops timeout : Int) (arguments : Option String) (target : String) : List String :=
  ["traceroute", "-m", toString max_hops, "-w", toString timeout] ++ splitArguments arguments ++ [target]

/-- `traceroute` (lines 522–579): clamp the hop limit to 1–64, reject bad
targets with `Invalid target`, otherwise run under `max_hops * timeout`
seconds. -/
def tracerouteRun (env : ProcEnv) (target : String) (max_hops timeout : Int) (arguments : Option String) :
    TracerouteResult × Option (List String × Int) :=
  let mh := clampI 1 64 max_hops
  if hostTargetValid target = false then
    (⟨false, target, "Invalid target"⟩, none)
  else
    let cmd := tracerouteCmd mh timeout arguments target
    let tmo := mh * timeout
    match env cmd tmo with
    | ProcOutcome.completed r => (⟨r.returncode = 0, target, r.stdout⟩, some (cmd, tmo))
    | ProcOutcome.timedOut m => (⟨false, target, m⟩, some (cmd, tmo))
    | ProcOutcome.raised m => (⟨false, target, m⟩, some (cmd, tmo))

/-- Outcome of `scapy.traceroute`: the (ttl, answering source) pairs, or an
exception. -/
inductive ScapyTrOutcome where
  | ok (pairs : List (Int × String))
  | raised (msg : String)

/-- One line of the scapy traceroute report (line 134). -/
def scapyHopLine (p : Int × String) : String := "  " ++ toString p.1 ++ ": " ++ p.2

/-- Instrumented outcome of `traceroute_host`: the text returned, the
`maxttl` passed to scapy's traceroute when that branch ran, and the
subprocess call when the system branch ran. -/
structure TrHostOut where
  text      : String
  scapyCall : Option Int
  procCall  : Option (List String × Int)

/-- The `traceroute_host` tool adapter (lines 112–144): clamp hops to 1–64,
validate the target, then either scapy traceroute (maxttl = clamped hops)
or delegation to `traceroute` with timeout 3. -/
def traceroute_host (scapyTr : Int → ScapyTrOutcome) (env : ProcEnv) (target : String)
    (max_hops : Int) (use_scapy : Bool) (arguments : Option String) : TrHostOut :=
  let mh := clampI 1 64 max_hops
  if hostTargetValid target = false then ⟨"Invalid target format", none, none⟩
  else if use_scapy then
    match scapyTr mh with
    | ScapyTrOutcome.ok [] => ⟨"No response from any hop", some mh, none⟩
    | ScapyTrOutcome.ok pairs =>
      ⟨String.intercalate ("\n") ("Scapy Traceroute Results:" :: pairs.map scapyHopLine), some mh, none⟩
    | ScapyTrOutcome.raised m => ⟨"Scapy traceroute error: " ++ m, some mh, none⟩
  else
    let r := tracerouteRun env target mh 3 arguments
    if r.1.success then ⟨r.1.raw_output, none, r.2⟩
    else ⟨"Traceroute failed: " ++ r.1.raw_output, none, r.2⟩

/- ===================== nmap (lines 146–171 and 468–519) ===================== -/

/-- The structured record of `nmap_scan_direct`; the open-port parsing of
lines 500–508 is not modelled (no claim refers to it). -/
structure NmapResult where
  success    : Bool
  target     : String
  scan_type  : String
  raw_output : String

/-- The per-scan-type argument lists (lines 477–484), with the `basic`
default of `scan_args.get`. -/
def nmapScanArgs (scan_type : String) : List String :=
  if scan_type = "basic" then ["-sT", "-T3"]
  else if scan_type = "quick" then ["-sn"]
  else if scan_type = "intense" then ["-sS", "-sV", "-T4"]
  else if scan_type = "ping" then ["-sn", "-PE"]
  else if scan_type = "version" then ["-sV"]
  else if scan_type = "os" then ["-O"]
  else ["-sT", "-T3"]

/-- The `-p` fragment: only when ports were given and pass their own
character check (line 489). -/
def nmapPortsPart : Option String → List String
  | none => []
  | some p => if !p.isEmpty && nmapPortsValid p then ["-p", p] else []

/-- Argument vector of `nmap_scan_direct` (lines 486–495). -/
def nmapCmd (scan_type : String) (ports arguments : Option String) (target : String) : List String :=
  ["nmap"] ++ nmapScanArgs scan_type ++ nmapPortsPart ports ++ splitArguments arguments ++ [target]

/-- `nmap_scan_direct` (lines 468–519): fail when nmap is absent, reject
targets failing the nmap regex, otherwise run under 300 seconds. -/
def nmap_scan_direct (nmapInstalled : Bool) (env : ProcEnv) (target scan_type : String)
    (ports arguments : Option String) : NmapResult × Option (List String × Int) :=
  if nmapInstalled = false then (⟨false, target, scan_type, "NMAP not installed"⟩, none)
  else if nmapTargetValid target = false then
    (⟨false, target, scan_type, "Invalid target format"⟩, none)
  else
    let cmd := nmapCmd scan_type ports arguments target
    match env cmd 300 with
    | ProcOutcome.completed r => (⟨r.returncode = 0, target, scan_type, r.stdout⟩, some (cmd, 300))
    | ProcOutcome.timedOut m => (⟨false, target, scan_type, m⟩, some (cmd, 300))
    | ProcOutcome.raised m => (⟨false, target, scan_type, m⟩, some (cmd, 300))

/-- The `nmap_scan` tool adapter (lines 146–171). -/
def nmap_scan (nmapInstalled : Bool) (env : ProcEnv) (target scan_type : String)
    (ports arguments : Option String) : String × Option (List String × Int) :=
  let r := nmap_scan_direct nmapInstalled env target scan_type ports arguments
  (if r.1.success then r.1.raw_output else "NMAP failed: " ++ r.1.raw_output, r.2)

/- ===================== hping3_probe (lines 174–242) ===================== -/

/-- The per-character TCP flag map of `hping3_probe` (line 216); characters
outside the map are dropped. -/
def hpingFlagMap : Char → Option String
  | 'S' => some "-S"
  | 'A' => some "-A"
  | 'F' => some "-F"
  | 'R' => some "-R"
  | 'U' => some "-U"
  | 'P' => some "-P"
  | _ => none

/-- `mode_flags.get(mode, "-S")` (lines 203–210, 220). -/
def hpingModeFlag (mode : String) : String :=
  if mode = "syn" then "-S"
  else if mode = "ack" then "-A"
  else if mode = "fin" then "-F"
  else if mode = "udp" then "-2"
  else if mode = "icmp" then "-1"
  else if mode = "rawip" then "-0"
  else "-S"

/-- The flag fragment (lines 214–220): custom flags only when given,
nonempty and in syn mode; otherwise the single mode flag. -/
def hpingFlagPart (flags : Option String) (mode : String) : List String :=
  match flags with
  | some fs =>
    if !fs.isEmpty && mode = "syn" then fs.toUpper.toList.filterMap hpingFlagMap
    else [hpingModeFlag mode]
  | none => [hpingModeFlag mode]

/-- The `-p` fragment (lines 222–223): absent in icmp and rawip modes. -/
def hpingPortPart (mode : String) (port : Int) : List String :=
  if mode = "icmp" || mode = "rawip" then [] else ["-p", toString port]

/-- Argument vector of `hping3_probe` (lines 212–228), from the clamped
port and count. -/
def hpingCmd (mode : String) (port count : Int) (flags arguments : Option String)
    (target : String) : List String :=
  ["hping3", "-c", toString count] ++ hpingFlagPart flags mode ++ hpingPortPart mode port
    ++ splitArguments arguments ++ [target]

/-- `hping3_probe` (lines 174–242): fail when hping3 is absent, reject bad
targets, clamp port to 1–65535 and count to 1–100, run under
`count * 5 + 10` seconds; `TimeoutExpired` is reported as a fixed message,
other exceptions with their text. -/
def hping3_probe (hpingInstalled : Bool) (env : ProcEnv) (target mode : String)
    (port count : Int) (flags arguments : Option String) : String × Option (List String × Int) :=
  if hpingInstalled = false then
    ("hping3 is not installed. Please install with: sudo apt install hping3", none)
  else if hostTargetValid target = false then ("Invalid target format", none)
  else
    let port2 := clampI 1 65535 port
    let count2 := clampI 1 100 count
    let cmd := hpingCmd mode port2 count2 flags arguments target
    let tmo := count2 * 5 + 10
    match env cmd tmo with
    | ProcOutcome.completed r =>
      let output := r.stdout ++ r.stderr
      (if output.trim.isEmpty then "No output from hping3" else output, some (cmd, tmo))
    | ProcOutcome.timedOut _ => ("hping3 timed out", some (cmd, tmo))
    | ProcOutcome.raised m => ("hping3 error: " ++ m, some (cmd, tmo))

/- ===================== quick_port_scan (lines 245–287) ===================== -/

/-- Outcome of one scapy `sr` exchange in `quick_port_scan`: an answer
(with whether it has a TCP layer, and its flags value), no answer, or an
exception. -/
inductive QSrOutcome where
  | answered (hasTCP : Bool) (flagsV : Int)
  | unanswered
  | raised (msg : String)

/-- The per-port result line (lines 267–285): `0x12` is OPEN (an RST is then
sent — a side effect not modelled), `0x14` is CLOSED, other answers append
nothing, no answer is FILTERED, an exception is ERROR. -/
def scanPortLine (sr : Int → QSrOutcome) (p : Int) : Option String :=
  match sr p with
  | QSrOutcome.answered true f =>
    if f = 18 then some ("Port " ++ toString p ++ ": OPEN")
    else if f = 20 then some ("Port " ++ toString p ++ ": CLOSED")
    else none
  | QSrOutcome.answered false _ => none
  | QSrOutcome.unanswered => some ("Port " ++ toString p ++ ": FILTERED (no response)")
  | QSrOutcome.raised m => some ("Port " ++ toString p ++ ": ERROR (" ++ m ++ ")")

/-- `quick_port_scan` (lines 245–287): reject targets failing the
digits-and-dots regex, parse the comma-separated port list (any
`int()` failure rejects the whole list), keep ports in 1–65535, at most 50,
then probe each in order.  The second component records the ports actually
probed. -/
def quick_port_scan (sr : Int → QSrOutcome) (target ports : String) : String × List Int :=
  if ipv4Valid target = false then ("Invalid IP address format", [])
  else
    match ((splitComma ports.toList).map String.mk).mapM pyInt with
    | none => ("Invalid ports format. Use comma-separated integers.", [])
    | some pl =>
      let pl2 := (pl.filter (fun p => decide (1 ≤ p ∧ p ≤ 65535))).take 50
      ("Quick Port Scan Results:\n" ++
        String.intercalate ("\n") ((pl2.map (scanPortLine sr)).filterMap id), pl2)

/- ===================== arp_scan (lines 290–319) ===================== -/

/-- Outcome of the broadcast ARP exchange: the (psrc, hwsrc) pairs of the
answered list, or an exception. -/
inductive ArpOutcome where
  | answered (pairs : List (String × String))
  | raised (msg : String)

/-- `arp_scan` (lines 290–319): reject inputs failing the CIDR regex with
the descriptive message; otherwise the srp exchange runs (second component
true) and the report is formatted.  -/
def arp_scan (srp : String → ArpOutcome) (network : String) : String × Bool :=
  if arpNetworkValid network = false then
    ("Invalid network format. Use CIDR notation like " ++ pyQuote "192.168.1.0/24", false)
  else
    match srp network with
    | ArpOutcome.answered [] => ("No hosts discovered", true)
    | ArpOutcome.answered pairs =>
      let dashes := String.mk (List.replicate 40 '-')
      (String.intercalate ("\n")
        (["ARP Scan Results:", dashes]
          ++ pairs.map (fun pr => "IP: " ++ padTo 15 pr.1 ++ " MAC: " ++ pr.2)
          ++ [dashes, "Total hosts found: " ++ toString pairs.length]), true)
    | ArpOutcome.raised m => ("ARP scan error: " ++ m, true)

/- ===================== dns_lookup_tool (lines 322–393) ===================== -/

/-- One resolved record, with the fields the per-type formatting reads. -/
inductive RData where
  | mx (preference : Int) (exchange : String)
  | soa (mname rname : String) (serial refresh retryV expire minimum : Int)
  | srv (priority weight portV : Int) (targetName : String)
  | plain (rep : String)

/-- Outcome of one `resolver.resolve(name, rtype)` call; everything but
`answers` is an exception caught by the per-type handlers. -/
inductive ResolveOutcome where
  | answers (rs : List RData)
  | nxdomain
  | noAnswer
  | noNameservers
  | raised (msg : String)

/-- The external dnspython collaborator: resolver (already configured with
the optional nameserver), `dns.reversename.from_address` (none models a
raise), and whether the library imports at all. -/
structure DnsEnv where
  resolve : String → String → ResolveOutcome
  reverseName : String → Option String
  dnspythonInstalled : Bool

def VALID_DNS_TYPES : List String :=
  ["A", "AAAA", "MX", "NS", "TXT", "SOA", "CNAME", "PTR", "SRV", "CAA", "ANY"]

/-- Requested record types (lines 345–350): split on commas, strip and
upper-case, keep known ones, default to `["A"]` when nothing survives. -/
def requestedTypes (record_types : String) : List String :=
  let ts := ((splitComma record_types.toList).map
      (fun t => String.mk ((pyStrip t).map Char.toUpper))).filter
    (fun t => VALID_DNS_TYPES.contains t)
  if ts.isEmpty then ["A"] else ts

/-- Per-record rendering (lines 370–383); the resolver oracle is assumed to
return rdata variants matching the requested type, mismatches render
nothing. -/
def fmtRData (rt : String) (r : RData) : List String :=
  if rt = "MX" then
    match r with
    | RData.mx p e => ["  Priority: " ++ toString p ++ ", Mail Server: " ++ e]
    | _ => []
  else if rt = "SOA" then
    match r with
    | RData.soa mn rn se re ry ex mi =>
      ["  Primary NS: " ++ mn, "  Admin: " ++ rn, "  Serial: " ++ toString se,
       "  Refresh: " ++ toString re ++ "s, Retry: " ++ toString ry ++ "s",
       "  Expire: " ++ toString ex ++ "s, Minimum TTL: " ++ toString mi ++ "s"]
    | _ => []
  else if rt = "SRV" then
    match r with
    | RData.srv p w po t =>
      ["  Priority: " ++ toString p ++ ", Weight: " ++ toString w,
       "  Port: " ++ toString po ++ ", Target: " ++ t]
    | _ => []
  else
    match r with
    | RData.plain s => ["  " ++ s]
    | _ => []

/-- One record-type block (lines 358–391): header, then the resolution —
for PTR, `from_address` then resolve of the reverse name, any failure
falling back to resolving the raw target — rendered answers or the
per-exception messages.  The second component lists the resolve calls
made, in order. -/
def dnsTypeBlock (env : DnsEnv) (target rt : String) : List String × List (String × String) :=
  let resolved : ResolveOutcome × List (String × String) :=
    if rt = "PTR" then
      match env.reverseName target with
      | some rev =>
        match env.resolve rev ("PTR") with
        | ResolveOutcome.answers rs => (ResolveOutcome.answers rs, [(rev, "PTR")])
        | _ => (env.resolve target ("PTR"), [(rev, "PTR"), (target, "PTR")])
      | none => (env.resolve target ("PTR"), [(target, "PTR")])
    else (env.resolve target rt, [(target, rt)])
  let body :=
    match resolved.1 with
    | ResolveOutcome.answers rs => (rs.map (fmtRData rt)).flatten
    | ResolveOutcome.nxdomain => ["  Domain does not exist"]
    | ResolveOutcome.noAnswer => ["  No " ++ rt ++ " records found"]
    | ResolveOutcome.noNameservers => ["  No nameservers available"]
    | ResolveOutcome.raised m => ["  Error: " ++ m]
  (("\n[" ++ rt ++ " Records]") :: body, resolved.2)

/-- The `dns_lookup_tool` adapter (lines 322–393).  There is no target
validation: the raw target goes straight to the resolver.  The second
component records every resolve call made.  (The `nameserver` argument
only configures the resolver and is part of `DnsEnv`.) -/
def dns_lookup_tool (env : DnsEnv) (target record_types : String) : String × List (String × String) :=
  if env.dnspythonInstalled = false then
    ("dnspython is not installed. Please install with: pip install dnspython", [])
  else
    let blocks := (requestedTypes record_types).map (dnsTypeBlock env target)
    (String.intercalate ("\n")
      ((("DNS Lookup Results for: " ++ target) :: String.mk (List.replicate 50 '=') :: [])
        ++ (blocks.map Prod.fst).flatten),
     (blocks.map Prod.snd).flatten)

/- ============ send_packet and craft_packet_json (lines 11–90) ============ -/

/-- A packet under construction: the stacked (layer name, field mapping)
pairs, outer first.  Scapy layer objects are opaque; stacking order is what
the claims are about. -/
abbrev Pkt : Type := List (String × PyVal)

/-- Outcome of a scapy `sr`/`srp` exchange in `send_packet`. -/
inductive SendOutcome where
  | answered (rep : String)
  | unanswered
  | raised (msg : String)

/-- The scapy collaborator of `send_packet`: layer construction
(`some msg` models a constructor exception), and the three transmission
primitives, each applied to the (possibly absent) assembled packet. -/
structure ScapyEnv where
  construct : String → PyVal → Option String
  sr : Option Pkt → SendOutcome
  srp : Option Pkt → SendOutcome
  send : Option Pkt → Option String

/-- `ALLOWED_LAYERS` (lines 30–33), in dict order. -/
def ALLOWED_LAYERS : List String := ["Ether", "IP", "ARP", "TCP", "UDP", "ICMP", "Raw"]

def allowedLayer (n : String) : Bool := ALLOWED_LAYERS.contains n

/-- The unknown-layer failure text (line 38), with the Python repr of the
allow-list keys. -/
def unknownLayerMsg (n : String) : String :=
  "Unknown or disallowed layer: " ++ n ++ ". Allowed: " ++ pyListRepr ALLOWED_LAYERS

/-- Result of the layer loop (lines 35–49): an early-returned failure text,
or the assembled packet; both also carry the names of the layers whose
construction was attempted (instrumentation for the claims). -/
inductive BuildResult where
  | failed (msg : String) (constructed : List String)
  | built (pkt : Option Pkt) (constructed : List String)

/-- The layer loop (lines 35–49): in insertion order, reject names outside
the allow-list; construct each allowed layer (a constructor exception is
caught into the `Error creating {name} layer:` text); stack onto the packet
under construction. -/
def buildLayers (env : ScapyEnv) : List (String × PyVal) → Option Pkt → List String → BuildResult
  | [], pkt, done => BuildResult.built pkt done
  | (n, f) :: rest, pkt, done =>
    if allowedLayer n = false then BuildResult.failed (unknownLayerMsg n) done
    else
      match env.construct n f with
      | some e => BuildResult.failed ("Error creating " ++ n ++ " layer: " ++ e) done
      | none =>
        let pkt2 := match pkt with
          | none => some [(n, f)]
          | some ls => some (ls ++ [(n, f)])
        buildLayers env rest pkt2 (done ++ [n])

/-- A Python-visible outcome: a returned string, or an exception escaping
the function. -/
inductive PyOutcome where
  | ret (s : String)
  | exc (msg : String)

/-- The `AttributeError` text of `layers.items()` on a non-dict value.
(The CPython message quotes the type and attribute names; the quotes are
immaterial and omitted.) -/
def attrErrMsg (tag : String) : String :=
  "AttributeError: " ++ tag ++ " object has no attribute items"

/-- Instrumented outcome of `send_packet`: the visible outcome, the layer
names whose construction was attempted, and whether a transmission
primitive ran. -/
structure SPTrace where
  outcome : PyOutcome
  constructed : List String
  transmitted : Bool

/-- `send_packet` (lines 11–71).  The JSON parse result is an input (see
`PyVal`): a `JSONDecodeError` returns the `Invalid JSON:` text; a parsed
non-dict raises `AttributeError` at `layers.items()` (line 36, outside any
try); a dict goes through the layer loop and then the transmission block,
whose exceptions are caught into `Error sending packet:`.  An empty dict
reaches transmission with no packet assembled (`pkt = None`). -/
def send_packet (env : ScapyEnv) (parsed : Except String PyVal)
    (is_ethernet want_response : Bool) : SPTrace :=
  match parsed with
  | Except.error e => ⟨PyOutcome.ret ("Invalid JSON: " ++ e), [], false⟩
  | Except.ok (PyVal.obj entries) =>
    match buildLayers env entries none [] with
    | BuildResult.failed msg done => ⟨PyOutcome.ret msg, done, false⟩
    | BuildResult.built pkt done =>
      if is_ethernet then
        if want_response then
          match env.srp pkt with
          | SendOutcome.answered rep => ⟨PyOutcome.ret rep, done, true⟩
          | SendOutcome.unanswered => ⟨PyOutcome.ret "No response received", done, true⟩
          | SendOutcome.raised m => ⟨PyOutcome.ret ("Error sending packet: " ++ m), done, true⟩
        else
          match env.send pkt with
          | none => ⟨PyOutcome.ret "Packet sent successfully", done, true⟩
          | some m => ⟨PyOutcome.ret ("Error sending packet: " ++ m), done, true⟩
      else
        if want_response then
          match env.sr pkt with
          | SendOutcome.answered rep => ⟨PyOutcome.ret rep, done, true⟩
          | SendOutcome.unanswered => ⟨PyOutcome.ret "No response received", done, true⟩
          | SendOutcome.raised m => ⟨PyOutcome.ret ("Error sending packet: " ++ m), done, true⟩
        else
          match env.send pkt with
          | none => ⟨PyOutcome.ret "Packet sent successfully", done, true⟩
          | some m => ⟨PyOutcome.ret ("Error sending packet: " ++ m), done, true⟩
  | Except.ok v => ⟨PyOutcome.exc (attrErrMsg (pyTypeTag v)), [], false⟩

/-- `craft_packet_json` (lines 74–90): parse, and re-serialize with
`json.dumps(layers, indent=2)`; no validation and no transmission occur.
`loads`/`dumps` are the external json codec; the Bool is the (constantly
false) transmission flag, mirroring `SPTrace.transmitted`. -/
def craft_packet_json (loads : String → Except String PyVal) (dumps : PyVal → String)
    (pkt_desc : String) : String × Bool :=
  match loads pkt_desc with
  | Except.ok layers => (dumps layers, false)
  | Except.error e => ("Invalid JSON: " ++ e, false)

/- ===================== spec-side batch description (§4.1/§3) ===================== -/

/-- Spec-side description of what one batch appends to the scratchpad
(spec §4.1): for each call in order, an assistant entry recording the call,
then a tool-response entry with the dispatched text tagged to the call's
identifier — stopping after a terminal `final_report` call. -/
def batchEntriesSpec (tm : ToolMapT) : List ToolCall → List ScratchEntry
  | [] => []
  | tc :: rest =>
    ScratchEntry.assistant tc :: ScratchEntry.toolMsg (dispatch tm tc).1 tc.id ::
      (if tc.name = "final_report" then [] else batchEntriesSpec tm rest)

/-- Spec-side early-return value of a batch: the first terminal call's
dispatched text, if any. -/
def batchEarlySpec (tm : ToolMapT) : List ToolCall → Option String
  | [] => none
  | tc :: rest =>
    if tc.name = "final_report" then some (dispatch tm tc).1 else batchEarlySpec tm rest

/- ===================== loop lemmas ===================== -/

theorem processBatch_spec (tm : ToolMapT) (calls : List ToolCall) :
    ∀ pad, processBatch tm calls pad = (pad ++ batchEntriesSpec tm calls, batchEarlySpec tm calls) := by
  induction calls with
  | nil => intro pad; simp [processBatch, batchEntriesSpec, batchEarlySpec]
  | cons tc rest ih =>
    intro pad
    by_cases h : tc.name = "final_report"
    · simp [processBatch, batchEntriesSpec, batchEarlySpec, h]
    · simp [processBatch, batchEntriesSpec, batchEarlySpec, h, ih]

theorem batchEarlySpec_none (tm : ToolMapT) (calls : List ToolCall)
    (h : ∀ tc ∈ calls, tc.name ≠ "final_report") : batchEarlySpec tm calls = none := by
  induction calls with
  | nil => rfl
  | cons tc rest ih =>
    have h1 : tc.name ≠ "final_report" := h tc (by simp)
    simp only [batchEarlySpec, if_neg h1]
    exact ih (fun x hx => h x (by simp [hx]))

theorem invokeAux_calls_le (tm : ToolMapT) (cap : Cap) (N : Nat) :
    ∀ fuel pad, (invokeAux tm cap N fuel pad).calls ≤ fuel := by
  intro fuel
  induction fuel with
  | zero => intro pad; simp [invokeAux]
  | succ f ih =>
    intro pad
    cases hc : cap pad with
    | error e => simp [invokeAux, hc]
    | ok r =>
      cases hr : r.tool_calls with
      | nil => simp [invokeAux, hc, hr]
      | cons a l =>
        have hpb := processBatch_spec tm (a :: l) pad
        cases he : batchEarlySpec tm (a :: l) with
        | some out => simp [invokeAux, hc, hr, hpb, he]
        | none =>
          simp only [invokeAux, hc, hr, hpb, he]
          exact Nat.succ_le_succ (ih _)

theorem invokeAux_pad_extends (tm : ToolMapT) (cap : Cap) (N : Nat) :
    ∀ fuel pad, ∃ s, (invokeAux tm cap N fuel pad).pad = pad ++ s := by
  intro fuel
  induction fuel with
  | zero => intro pad; exact ⟨[], by simp [invokeAux]⟩
  | succ f ih =>
    intro pad
    cases hc : cap pad with
    | error e => exact ⟨[], by simp [invokeAux, hc]⟩
    | ok r =>
      cases hr : r.tool_calls with
      | nil => exact ⟨[], by simp [invokeAux, hc, hr]⟩
      | cons a l =>
        have hpb := processBatch_spec tm (a :: l) pad
        cases he : batchEarlySpec tm (a :: l) with
        | some out =>
          exact ⟨batchEntriesSpec tm (a :: l), by simp [invokeAux, hc, hr, hpb, he]⟩
        | none =>
          obtain ⟨s, hs⟩ := ih (pad ++ batchEntriesSpec tm (a :: l))
          exact ⟨batchEntriesSpec tm (a :: l) ++ s, by simp [invokeAux, hc, hr, hpb, he, hs]⟩

theorem invokeAux_nonterminal (tm : ToolMapT) (cap : Cap) (N : Nat)
    (H : ∀ pad, ∃ r, cap pad = Except.ok r ∧ r.tool_calls ≠ [] ∧
      ∀ tc ∈ r.tool_calls, tc.name ≠ "final_report") :
    ∀ fuel pad, (invokeAux tm cap N fuel pad).result = maxIterMessage N ∧
      (invokeAux tm cap N fuel pad).calls = fuel := by
  intro fuel
  induction fuel with
  | zero => intro pad; exact ⟨rfl, rfl⟩
  | succ f ih =>
    intro pad
    obtain ⟨r, hc, hne, hnt⟩ := H pad
    cases hr : r.tool_calls with
    | nil => exact absurd hr hne
    | cons a l =>
      have hpb := processBatch_spec tm (a :: l) pad
      have he : batchEarlySpec tm (a :: l) = none :=
        batchEarlySpec_none tm (a :: l) (fun tc htc => hnt tc (hr ▸ htc))
      have hih := ih (pad ++ batchEntriesSpec tm (a :: l))
      simp only [invokeAux, hc, hr, hpb, he]
      exact ⟨hih.1, by rw [hih.2]⟩

/- ===================== concrete stubs for witnesses/counterexamples ===================== -/

/-- A trivial adapter behaviour (every network tool succeeds with empty
output); loop-level claims hold for every behaviour, witnesses pick this
one. -/
def adaptersStub : Adapters :=
  ⟨fun _ => Except.ok "", fun _ => Except.ok "", fun _ => Except.ok "",
   fun _ => Except.ok "", fun _ => Except.ok "", fun _ => Except.ok "",
   fun _ => Except.ok "", fun _ => Except.ok "", fun _ => Except.ok ""⟩

theorem TOOL_MAP_final_report (A : Adapters) :
    TOOL_MAP A "final_report" = some final_report_fn := rfl

/- ===================== C1 ===================== -/

/-- C1 (amended): dispatch never raises into the loop.  An unknown tool
name yields exactly the text `Unknown tool: {name}` with the success flag
false, and (since `final_report` is always registered) the loop always
continues with the remaining calls of the batch; an adapter exception is
caught into `Tool execution error: {message}` with the success flag false,
and the loop continues with the remaining calls unless the raising call
names the terminal tool `final_report`, in which case that failure text is
returned as the session result. -/
theorem dispatch_failure_isolation :
    (∀ (A : Adapters) (tc : ToolCall), TOOL_MAP A tc.name = none →
      dispatch (TOOL_MAP A) tc = ("Unknown tool: " ++ tc.name, false, some ("Unknown tool")) ∧
      ∀ rest pad, processBatch (TOOL_MAP A) (tc :: rest) pad =
        processBatch (TOOL_MAP A) rest
          (pad ++ [ScratchEntry.assistant tc,
                   ScratchEntry.toolMsg ("Unknown tool: " ++ tc.name) tc.id])) ∧
    (∀ (tm : ToolMapT) (tc : ToolCall) (f : ToolFun) (e : String),
      tm tc.name = some f → f tc.args = Except.error e →
      dispatch tm tc = ("Tool execution error: " ++ e, false, some e) ∧
      (tc.name ≠ "final_report" →
        ∀ rest pad, processBatch tm (tc :: rest) pad =
          processBatch tm rest
            (pad ++ [ScratchEntry.assistant tc,
                     ScratchEntry.toolMsg ("Tool execution error: " ++ e) tc.id]))) := by
  constructor
  · intro A tc hnone
    have hdisp : dispatch (TOOL_MAP A) tc =
        ("Unknown tool: " ++ tc.name, false, some ("Unknown tool")) := by
      simp [dispatch, hnone]
    refine ⟨hdisp, fun rest pad => ?_⟩
    have hname : tc.name ≠ "final_report" := by
      intro h
      rw [h, TOOL_MAP_final_report] at hnone
      exact Option.noConfusion hnone
    simp [processBatch, hdisp, hname]
  · intro tm tc f e hf he
    have hdisp : dispatch tm tc = ("Tool execution error: " ++ e, false, some e) := by
      simp [dispatch, hf, he]
    refine ⟨hdisp, fun hname rest pad => ?_⟩
    simp [processBatch, hdisp, hname]

/-- Witness for C1 at concrete inputs: an unknown name and a raising
adapter, each dispatched and continuing as stated. -/
theorem dispatch_failure_isolation_witness :
    dispatch (TOOL_MAP adaptersStub) ⟨"no_such_tool", [], "w1"⟩ =
      ("Unknown tool: no_such_tool", false, some ("Unknown tool")) ∧
    dispatch (fun _ => some (fun _ => Except.error "boom")) ⟨"ping_host", [], "w2"⟩ =
      ("Tool execution error: boom", false, some "boom") ∧
    processBatch (fun _ => some (fun _ => Except.error "boom"))
        [⟨"ping_host", [], "w2"⟩] [] =
      processBatch (fun _ => some (fun _ => Except.error "boom")) []
        [ScratchEntry.assistant ⟨"ping_host", [], "w2"⟩,
         ScratchEntry.toolMsg ("Tool execution error: " ++ "boom") "w2"] := by
  refine ⟨(dispatch_failure_isolation.1 adaptersStub ⟨"no_such_tool", [], "w1"⟩ rfl).1, ?_, ?_⟩
  · exact (dispatch_failure_isolation.2 (fun _ => some (fun _ => Except.error "boom"))
      ⟨"ping_host", [], "w2"⟩ _ "boom" rfl rfl).1
  · exact (dispatch_failure_isolation.2 (fun _ => some (fun _ => Except.error "boom"))
      ⟨"ping_host", [], "w2"⟩ _ "boom" rfl rfl).2 (by decide) [] []

/-- The capability stub of the C1 counterexample: its one batch is a
terminal call with malformed arguments followed by another call. -/
def capC1 : Cap := fun _ =>
  Except.ok ⟨"", [⟨"final_report", [], "i1"⟩, ⟨"ping_host", [], "i2"⟩]⟩

/-- Counterexample to C1 as stated: when the raising adapter is the
terminal tool (here `final_report` called without its `report` argument,
a `TypeError` at `**tool_args` binding), the loop does NOT continue with
the remaining calls of the batch — it returns the failure text as the
session result after one model call, and the second call of the batch is
never dispatched (the scratchpad records only the first call). -/
theorem dispatch_failure_isolation_cex :
    (invoke (TOOL_MAP adaptersStub) capC1 3).result =
      "Tool execution error: TypeError: final_report argument mismatch" ∧
    (invoke (TOOL_MAP adaptersStub) capC1 3).calls = 1 ∧
    (invoke (TOOL_MAP adaptersStub) capC1 3).pad =
      [ScratchEntry.assistant ⟨"final_report", [], "i1"⟩,
       ScratchEntry.toolMsg "Tool execution error: TypeError: final_report argument mismatch" "i1"] :=
  ⟨rfl, rfl, rfl⟩

/- ===================== C2 ===================== -/

/-- C2 (amended): the loop never exceeds `max_iterations` model calls; and
for every capability stub that on each call requests at least one tool
call, none of which names the terminal tool, a run with
`max_iterations = 3` makes exactly 3 model calls and returns the fixed
partial-results message. -/
theorem agent_loop_iteration_ceiling :
    (∀ (tm : ToolMapT) (cap : Cap) (N : Nat), 1 ≤ N → (invoke tm cap N).calls ≤ N) ∧
    (∀ (tm : ToolMapT) (cap : Cap),
      (∀ pad, ∃ r, cap pad = Except.ok r ∧ r.tool_calls ≠ [] ∧
        ∀ tc ∈ r.tool_calls, tc.name ≠ "final_report") →
      (invoke tm cap 3).calls = 3 ∧ (invoke tm cap 3).result = maxIterMessage 3) := by
  constructor
  · intro tm cap N _
    exact invokeAux_calls_le tm cap N N []
  · intro tm cap H
    have h := invokeAux_nonterminal tm cap 3 H 3 []
    exact ⟨h.2, h.1⟩

/-- A capability stub that always requests a single non-terminal call. -/
def capNonTerminal : Cap := fun _ => Except.ok ⟨"", [⟨"nmap_scan", [], "i"⟩]⟩

/-- Witness for C2 at concrete inputs. -/
theorem agent_loop_iteration_ceiling_witness :
    (invoke (TOOL_MAP adaptersStub) capNonTerminal 2).calls ≤ 2 ∧
    (invoke (TOOL_MAP adaptersStub) capNonTerminal 3).calls = 3 ∧
    (invoke (TOOL_MAP adaptersStub) capNonTerminal 3).result = maxIterMessage 3 := by
  have H : ∀ pad, ∃ r, capNonTerminal pad = Except.ok r ∧ r.tool_calls ≠ [] ∧
      ∀ tc ∈ r.tool_calls, tc.name ≠ "final_report" := by
    intro pad
    refine ⟨⟨"", [⟨"nmap_scan", [], "i"⟩]⟩, rfl, by simp, ?_⟩
    intro tc htc
    simp only [List.mem_singleton] at htc
    rw [htc]
    decide
  exact ⟨agent_loop_iteration_ceiling.1 (TOOL_MAP adaptersStub) capNonTerminal 2 (by decide),
         (agent_loop_iteration_ceiling.2 (TOOL_MAP adaptersStub) capNonTerminal H).1,
         (agent_loop_iteration_ceiling.2 (TOOL_MAP adaptersStub) capNonTerminal H).2⟩

/-- The capability stub of the C2 counterexample: every batch contains a
non-terminal call AND a terminal one. -/
def capC2 : Cap := fun _ =>
  Except.ok ⟨"", [⟨"ping_host", [], "a"⟩, ⟨"final_report", [("report", PyVal.str "X")], "b"⟩]⟩

/-- Counterexample to C2 as stated: this stub requests at least one
non-terminal tool call on each model call, yet a `max_iterations = 3` run
makes exactly 1 model call and returns the terminal tool's text `X`
rather than the partial-results message — "at least one non-terminal call
per batch" is not enough; no call of the batch may be terminal. -/
theorem agent_loop_iteration_ceiling_cex :
    (∀ pad, ∃ r, capC2 pad = Except.ok r ∧ r.tool_calls ≠ [] ∧
      ∃ tc ∈ r.tool_calls, tc.name ≠ "final_report") ∧
    (invoke (TOOL_MAP adaptersStub) capC2 3).calls = 1 ∧
    ¬ (invoke (TOOL_MAP adaptersStub) capC2 3).calls = 3 ∧
    (invoke (TOOL_MAP adaptersStub) capC2 3).result = "X" ∧
    ¬ (invoke (TOOL_MAP adaptersStub) capC2 3).result = maxIterMessage 3 := by
  refine ⟨?_, rfl, by decide, rfl, by decide⟩
  intro pad
  exact ⟨⟨"", [⟨"ping_host", [], "a"⟩, ⟨"final_report", [("report", PyVal.str "X")], "b"⟩]⟩,
    rfl, by simp, ⟨"ping_host", [], "a"⟩, by simp, by decide⟩

/- ===================== C3 ===================== -/

/-- C3: a first response requesting `final_report` with
`{report: "DONE"}` makes the loop return `DONE` after exactly one model
call and exactly one dispatched tool call; in general a terminal call in a
batch returns its dispatched text immediately, appending only its own two
scratchpad entries and dispatching none of the later calls; and the
registered terminal tool is the identity on its `report` argument. -/
theorem terminal_tool_ends_loop :
    (∀ (A : Adapters) (cap : Cap) (N : Nat) (c i : String),
      1 ≤ N →
      cap [] = Except.ok ⟨c, [⟨"final_report", [("report", PyVal.str "DONE")], i⟩]⟩ →
      invoke (TOOL_MAP A) cap N =
        ⟨"DONE", 1,
         [ScratchEntry.assistant ⟨"final_report", [("report", PyVal.str "DONE")], i⟩,
          ScratchEntry.toolMsg "DONE" i]⟩ ∧
      countAssistant (invoke (TOOL_MAP A) cap N).pad = 1) ∧
    (∀ (tm : ToolMapT) (tc : ToolCall) (rest : List ToolCall) (pad : List ScratchEntry),
      tc.name = "final_report" →
      processBatch tm (tc :: rest) pad =
        (pad ++ [ScratchEntry.assistant tc, ScratchEntry.toolMsg (dispatch tm tc).1 tc.id],
         some (dispatch tm tc).1)) ∧
    (∀ r, final_report_fn [("report", PyVal.str r)] = Except.ok r) := by
  refine ⟨?_, ?_, fun r => rfl⟩
  · intro A cap N c i hN hcap
    cases N with
    | zero => omega
    | succ m =>
      have : invoke (TOOL_MAP A) cap (m + 1) =
          ⟨"DONE", 1,
           [ScratchEntry.assistant ⟨"final_report", [("report", PyVal.str "DONE")], i⟩,
            ScratchEntry.toolMsg "DONE" i]⟩ := by
        simp only [invoke, invokeAux, hcap]
        rfl
      exact ⟨this, by rw [this]; rfl⟩
  · intro tm tc rest pad hname
    simp [processBatch, hname]

/-- Witness for C3 at concrete inputs. -/
theorem terminal_tool_ends_loop_witness :
    invoke (TOOL_MAP adaptersStub)
        (fun _ => Except.ok ⟨"", [⟨"final_report", [("report", PyVal.str "DONE")], "t1"⟩]⟩) 1 =
      ⟨"DONE", 1,
       [ScratchEntry.assistant ⟨"final_report", [("report", PyVal.str "DONE")], "t1"⟩,
        ScratchEntry.toolMsg "DONE" "t1"]⟩ ∧
    processBatch (TOOL_MAP adaptersStub)
        [⟨"final_report", [("report", PyVal.str "Z")], "t2"⟩, ⟨"ping_host", [], "t3"⟩] [] =
      ([ScratchEntry.assistant ⟨"final_report", [("report", PyVal.str "Z")], "t2"⟩,
        ScratchEntry.toolMsg "Z" "t2"], some "Z") := by
  constructor
  · exact (terminal_tool_ends_loop.1 adaptersStub _ 1 "" "t1" (by decide) rfl).1
  · exact terminal_tool_ends_loop.2.1 (TOOL_MAP adaptersStub)
      ⟨"final_report", [("report", PyVal.str "Z")], "t2"⟩ [⟨"ping_host", [], "t3"⟩] [] rfl

/- ===================== C6 ===================== -/

/-- C6: across one `llm_crafter` invocation, the only condition raised to
the caller is a capability-resolution failure, surfaced as the single
wrapped `RuntimeError("Agent execution failed: ...")`; for every resolved
capability and every adapter behaviour (tool failures included) the
invocation returns a text result. -/
theorem crafter_error_channel :
    ∀ (n : Nat),
      (∀ (tm : ToolMapT) (cap : Cap),
        llm_crafter (Except.ok cap) tm n = CrafterOutcome.ok ((invoke tm cap n).result)) ∧
      (∀ (e : String) (tm : ToolMapT),
        llm_crafter (Except.error e) tm n =
          CrafterOutcome.raisedRuntime ("Agent execution failed: " ++ e)) ∧
      (∀ (res : Except String Cap) (tm : ToolMapT) (m : String),
        llm_crafter res tm n = CrafterOutcome.raisedRuntime m →
        ∃ e, res = Except.error e ∧ m = "Agent execution failed: " ++ e) := by
  intro n
  refine ⟨fun tm cap => rfl, fun e tm => rfl, ?_⟩
  intro res tm m h
  cases res with
  | error e =>
    refine ⟨e, rfl, ?_⟩
    simpa [llm_crafter] using h.symm
  | ok cap => exact absurd h (by simp [llm_crafter])

/-- Witness for C6 at concrete inputs. -/
theorem crafter_error_channel_witness :
    llm_crafter (Except.ok capNonTerminal) (TOOL_MAP adaptersStub) 5 =
      CrafterOutcome.ok ((invoke (TOOL_MAP adaptersStub) capNonTerminal 5).result) ∧
    llm_crafter (Except.error "connection refused") (TOOL_MAP adaptersStub) 5 =
      CrafterOutcome.raisedRuntime ("Agent execution failed: " ++ "connection refused") ∧
    (∃ e, (Except.error "boom" : Except String Cap) = Except.error e ∧
      ("Agent execution failed: " ++ "boom") = "Agent execution failed: " ++ e) := by
  refine ⟨(crafter_error_channel 5).1 (TOOL_MAP adaptersStub) capNonTerminal,
          (crafter_error_channel 5).2.1 "connection refused" (TOOL_MAP adaptersStub),
          (crafter_error_channel 5).2.2 (Except.error "boom") (TOOL_MAP adaptersStub)
            ("Agent execution failed: " ++ "boom") rfl⟩

/- ===================== C9 ===================== -/

/-- C9: the scratchpad is append-only and order-preserving.  Each batch
maps the initial scratchpad `pad` to exactly `pad ++ entries`, where
`entries` lists, for each call in the order received, first the assistant
entry recording that call and then the tool-response entry carrying its
dispatched text tagged with its identifier (stopping after a terminal
call); and every run of the loop only ever extends the scratchpad it was
given, the extended sequence being what the capability sees next. -/
theorem scratchpad_append_only :
    (∀ (tm : ToolMapT) (calls : List ToolCall) (pad : List ScratchEntry),
      processBatch tm calls pad = (pad ++ batchEntriesSpec tm calls, batchEarlySpec tm calls)) ∧
    (∀ (tm : ToolMapT) (cap : Cap) (N fuel : Nat) (pad : List ScratchEntry),
      ∃ s, (invokeAux tm cap N fuel pad).pad = pad ++ s) :=
  ⟨fun tm calls pad => processBatch_spec tm calls pad,
   fun tm cap N fuel pad => invokeAux_pad_extends tm cap N fuel pad⟩

/- ===================== C4 helpers ===================== -/

/-- First layer name outside the allow-list, in insertion order. -/
def firstDisallowed : List (String × PyVal) → Option String
  | [] => none
  | (n, _) :: rest => if allowedLayer n then firstDisallowed rest else some n

/-- The layers strictly before the first disallowed one. -/
def allowedPrefix : List (String × PyVal) → List (String × PyVal)
  | [] => []
  | (n, f) :: rest => if allowedLayer n then (n, f) :: allowedPrefix rest else []

theorem buildLayers_disallowed_fails (env : ScapyEnv) (entries : List (String × PyVal))
    (bad : String) (h : firstDisallowed entries = some bad) :
    ∀ pkt done, ∃ msg done2, buildLayers env entries pkt done = BuildResult.failed msg done2 := by
  induction entries with
  | nil => simp [firstDisallowed] at h
  | cons p rest ih =>
    intro pkt done
    obtain ⟨n, f⟩ := p
    by_cases ha : allowedLayer n
    · have h' : firstDisallowed rest = some bad := by
        simpa [firstDisallowed, ha] using h
      cases hcon : env.construct n f with
      | some e =>
        exact ⟨"Error creating " ++ n ++ " layer: " ++ e, done, by
          simp [buildLayers, ha, hcon]⟩
      | none =>
        obtain ⟨msg, done2, hb⟩ := ih h'
          (match pkt with | none => some [(n, f)] | some ls => some (ls ++ [(n, f)]))
          (done ++ [n])
        exact ⟨msg, done2, by simp [buildLayers, ha, hcon, hb]⟩
    · have ha' : allowedLayer n = false := by simpa using ha
      have hbad : n = bad := by
        have := h
        simp [firstDisallowed, ha'] at this
        exact this
      exact ⟨unknownLayerMsg bad, done, by subst hbad; simp [buildLayers, ha']⟩

theorem buildLayers_clean_prefix (env : ScapyEnv) (entries : List (String × PyVal))
    (bad : String) (h : firstDisallowed entries = some bad)
    (hc : ∀ p ∈ allowedPrefix entries, env.construct p.1 p.2 = none) :
    ∀ pkt done, buildLayers env entries pkt done =
      BuildResult.failed (unknownLayerMsg bad) (done ++ (allowedPrefix entries).map Prod.fst) := by
  induction entries with
  | nil => simp [firstDisallowed] at h
  | cons p rest ih =>
    intro pkt done
    obtain ⟨n, f⟩ := p
    by_cases ha : allowedLayer n
    · have h' : firstDisallowed rest = some bad := by
        simpa [firstDisallowed, ha] using h
      have hcn : env.construct n f = none := hc (n, f) (by simp [allowedPrefix, ha])
      have hc' : ∀ p ∈ allowedPrefix rest, env.construct p.1 p.2 = none := by
        intro p hp
        exact hc p (by simp [allowedPrefix, ha, hp])
      have := ih h' hc'
        (match pkt with | none => some [(n, f)] | some ls => some (ls ++ [(n, f)]))
        (done ++ [n])
      simp [buildLayers, ha, hcn, this, allowedPrefix]
    · have ha' : allowedLayer n = false := by simpa using ha
      have hbad : n = bad := by
        have := h
        simp [firstDisallowed, ha'] at this
        exact this
      subst hbad
      simp [buildLayers, allowedPrefix, ha']

/- ===================== C4 ===================== -/

/-- C4 (amended): for every packet specification containing a layer name
outside the allow-list, `send_packet` never attempts transmission and
returns a failure text; when every layer before the first disallowed one
constructs successfully, that failure text names the first disallowed
layer together with the permitted set, and exactly the layers strictly
before it (and no later ones) have their construction attempted. -/
theorem packet_layer_allowlist :
    ∀ (env : ScapyEnv) (entries : List (String × PyVal)) (ie wr : Bool) (bad : String),
      firstDisallowed entries = some bad →
      (send_packet env (Except.ok (PyVal.obj entries)) ie wr).transmitted = false ∧
      ((∀ p ∈ allowedPrefix entries, env.construct p.1 p.2 = none) →
        send_packet env (Except.ok (PyVal.obj entries)) ie wr =
          ⟨PyOutcome.ret (unknownLayerMsg bad), (allowedPrefix entries).map Prod.fst, false⟩) := by
  intro env entries ie wr bad h
  constructor
  · obtain ⟨msg, done2, hb⟩ := buildLayers_disallowed_fails env entries bad h none []
    simp [send_packet, hb]
  · intro hc
    have hb := buildLayers_clean_prefix env entries bad h hc none []
    simp [send_packet, hb]

/-- A trivial scapy behaviour for witnesses: construction always succeeds,
exchanges go unanswered, fire-and-forget succeeds. -/
def scapyStub : ScapyEnv :=
  ⟨fun _ _ => none, fun _ => SendOutcome.unanswered, fun _ => SendOutcome.unanswered,
   fun _ => none⟩

/-- Witness for C4 at a concrete specification with a disallowed layer. -/
theorem packet_layer_allowlist_witness :
    (send_packet scapyStub
       (Except.ok (PyVal.obj [("IP", PyVal.obj []), ("Foo", PyVal.obj [])])) false true).transmitted
      = false ∧
    send_packet scapyStub
        (Except.ok (PyVal.obj [("IP", PyVal.obj []), ("Foo", PyVal.obj [])])) false true =
      ⟨PyOutcome.ret (unknownLayerMsg "Foo"), ["IP"], false⟩ := by
  have h := packet_layer_allowlist scapyStub [("IP", PyVal.obj []), ("Foo", PyVal.obj [])]
    false true "Foo" rfl
  exact ⟨h.1, h.2 (fun p _ => rfl)⟩

/-- A scapy behaviour whose IP constructor raises. -/
def scapyBadIP : ScapyEnv :=
  ⟨fun n _ => if n = "IP" then some "bad value" else none,
   fun _ => SendOutcome.unanswered, fun _ => SendOutcome.unanswered, fun _ => none⟩

/-- Counterexample to C4 as stated, at the specification
`{"IP": {}, "Foo": {}}` (the layer `Foo` is outside the allow-list):
(i) construction of the earlier allowed layer IS attempted (the claim says
layer construction is never attempted), and (ii) when that earlier
construction fails, the returned failure text is the layer-creation error,
which does not name the offending layer `Foo` nor the permitted set. -/
theorem packet_layer_allowlist_cex :
    firstDisallowed [("IP", PyVal.obj []), ("Foo", PyVal.obj [])] = some "Foo" ∧
    (send_packet scapyStub
       (Except.ok (PyVal.obj [("IP", PyVal.obj []), ("Foo", PyVal.obj [])])) false true).constructed
      = ["IP"] ∧
    (send_packet scapyBadIP
       (Except.ok (PyVal.obj [("IP", PyVal.obj []), ("Foo", PyVal.obj [])])) false true).outcome
      = PyOutcome.ret ("Error creating IP layer: bad value") ∧
    ("Error creating IP layer: bad value" = unknownLayerMsg "Foo" → False) :=
  ⟨rfl, rfl, rfl, by decide⟩

/- ===================== C7 ===================== -/

/-- C7: on a valid specification (one the json codec parses, all layer
names in the allow-list) the describe-only path performs no transmission
and returns the re-serialized specification, whose parse is the input
value; hence a second pass through the path returns the same structure. -/
theorem craft_packet_json_idempotent :
    ∀ (loads : String → Except String PyVal) (dumps : PyVal → String) (s : String) (v : PyVal),
      loads s = Except.ok v →
      loads (dumps v) = Except.ok v →
      (∃ entries, v = PyVal.obj entries ∧ ∀ p ∈ entries, allowedLayer p.1 = true) →
      (craft_packet_json loads dumps s).2 = false ∧
      (craft_packet_json loads dumps s).1 = dumps v ∧
      loads ((craft_packet_json loads dumps s).1) = Except.ok v ∧
      craft_packet_json loads dumps ((craft_packet_json loads dumps s).1) =
        craft_packet_json loads dumps s := by
  intro loads dumps s v h1 h2 _
  simp [craft_packet_json, h1, h2]

/-- The value of the C7 witness specification. -/
def pyValIP : PyVal := PyVal.obj [("IP", PyVal.obj [("dst", PyVal.str "192.168.1.1")])]

/-- A concrete json-codec behaviour for the C7 witness, satisfying the
round-trip hypothesis at `pyValIP`. -/
def loadsW : String → Except String PyVal := fun x =>
  if x = "SRC" then Except.ok pyValIP
  else if x = "OUT" then Except.ok pyValIP
  else Except.error "Expecting value: line 1 column 1 (char 0)"

def dumpsW : PyVal → String := fun _ => "OUT"

/-- Witness for C7 at a concrete valid specification. -/
theorem craft_packet_json_idempotent_witness :
    (craft_packet_json loadsW dumpsW "SRC").2 = false ∧
    (craft_packet_json loadsW dumpsW "SRC").1 = dumpsW pyValIP ∧
    loadsW ((craft_packet_json loadsW dumpsW "SRC").1) = Except.ok pyValIP ∧
    craft_packet_json loadsW dumpsW ((craft_packet_json loadsW dumpsW "SRC").1) =
      craft_packet_json loadsW dumpsW "SRC" :=
  craft_packet_json_idempotent loadsW dumpsW "SRC" pyValIP rfl rfl
    ⟨[("IP", PyVal.obj [("dst", PyVal.str "192.168.1.1")])], rfl, by decide⟩

/- ===================== C10 ===================== -/

/-- C10: `send_packet` is NOT total at its public interface.  At the
failing input `pkt_desc = "[]"` — valid JSON whose parse is a list, not a
dict — `layers.items()` (line 36, outside every try block) raises an
uncaught `AttributeError`.  The neighbouring paths behave as the claim
says: malformed JSON returns the `Invalid JSON:` text, and the empty
specification `"{}"` passes validation and reaches the send primitive
with no packet assembled, returning a string. -/
theorem send_packet_nonobject_raises :
    send_packet scapyStub (Except.ok (PyVal.arr [])) false true =
      ⟨PyOutcome.exc (attrErrMsg "list"), [], false⟩ ∧
    send_packet scapyStub (Except.error "Expecting value: line 1 column 1 (char 0)") false true =
      ⟨PyOutcome.ret ("Invalid JSON: " ++ "Expecting value: line 1 column 1 (char 0)"), [], false⟩ ∧
    send_packet scapyStub (Except.ok (PyVal.obj [])) false true =
      ⟨PyOutcome.ret "No response received", [], true⟩ :=
  ⟨rfl, rfl, rfl⟩

/- ===================== C5 ===================== -/

theorem clampI_mem (lo hi x : Int) (h : lo ≤ hi) :
    lo ≤ clampI lo hi x ∧ clampI lo hi x ≤ hi :=
  ⟨le_min (le_max_left lo x) h, min_le_right _ _⟩

/-- C5: every numeric tunable is used in its clamped form, and the clamp
lies in the declared safe range, in the very invocation handed to the
external process or socket primitive: ping's repeat count (1–20) and
per-ping timeout (1–10), hping3's port (1–65535) and count (1–100), the
system traceroute's hop limit (1–64), and the scapy traceroute's maxttl
(1–64); concretely, count=1000 clamps to 20 and port=0 clamps to 1. -/
theorem numeric_clamps :
    (∀ (env : ProcEnv) (t : String) (c tmo : Int) (a : Option String),
      hostTargetValid t = true →
      (pingRun env t c tmo a).2 =
        some (pingCmd (clampI 1 20 c) (clampI 1 10 tmo) a t,
              clampI 1 20 c * clampI 1 10 tmo + 5) ∧
      1 ≤ clampI 1 20 c ∧ clampI 1 20 c ≤ 20 ∧
      1 ≤ clampI 1 10 tmo ∧ clampI 1 10 tmo ≤ 10) ∧
    (∀ (env : ProcEnv) (t m : String) (p c : Int) (f a : Option String),
      hostTargetValid t = true →
      (hping3_probe true env t m p c f a).2 =
        some (hpingCmd m (clampI 1 65535 p) (clampI 1 100 c) f a t,
              clampI 1 100 c * 5 + 10) ∧
      1 ≤ clampI 1 65535 p ∧ clampI 1 65535 p ≤ 65535 ∧
      1 ≤ clampI 1 100 c ∧ clampI 1 100 c ≤ 100) ∧
    (∀ (env : ProcEnv) (t : String) (hops tmo : Int) (a : Option String),
      hostTargetValid t = true →
      (tracerouteRun env t hops tmo a).2 =
        some (tracerouteCmd (clampI 1 64 hops) tmo a t, clampI 1 64 hops * tmo) ∧
      1 ≤ clampI 1 64 hops ∧ clampI 1 64 hops ≤ 64) ∧
    (∀ (stc : Int → ScapyTrOutcome) (env : ProcEnv) (t : String) (hops : Int) (a : Option String),
      hostTargetValid t = true →
      (traceroute_host stc env t hops true a).scapyCall = some (clampI 1 64 hops)) ∧
    (clampI 1 20 1000 = 20 ∧ clampI 1 65535 0 = 1) := by
  refine ⟨?_, ?_, ?_, ?_, by decide, by decide⟩
  · intro env t c tmo a hv
    refine ⟨?_, (clampI_mem 1 20 c (by decide)).1, (clampI_mem 1 20 c (by decide)).2,
            (clampI_mem 1 10 tmo (by decide)).1, (clampI_mem 1 10 tmo (by decide)).2⟩
    cases henv : env (pingCmd (clampI 1 20 c) (clampI 1 10 tmo) a t)
        (clampI 1 20 c * clampI 1 10 tmo + 5) <;>
      simp [pingRun, hv, henv]
  · intro env t m p c f a hv
    refine ⟨?_, (clampI_mem 1 65535 p (by decide)).1, (clampI_mem 1 65535 p (by decide)).2,
            (clampI_mem 1 100 c (by decide)).1, (clampI_mem 1 100 c (by decide)).2⟩
    cases henv : env (hpingCmd m (clampI 1 65535 p) (clampI 1 100 c) f a t)
        (clampI 1 100 c * 5 + 10) <;>
      simp [hping3_probe, hv, henv]
  · intro env t hops tmo a hv
    refine ⟨?_, (clampI_mem 1 64 hops (by decide)).1, (clampI_mem 1 64 hops (by decide)).2⟩
    cases henv : env (tracerouteCmd (clampI 1 64 hops) tmo a t) (clampI 1 64 hops * tmo) <;>
      simp [tracerouteRun, hv, henv]
  · intro stc env t hops a hv
    cases hs : stc (clampI 1 64 hops) with
    | ok pairs => cases pairs <;> simp [traceroute_host, hv, hs]
    | raised m => simp [traceroute_host, hv, hs]

/-- A subprocess behaviour for witnesses: every command completes with
empty output and exit code 0. -/
def procStub : ProcEnv := fun _ _ => ProcOutcome.completed ⟨"", "", 0⟩

/-- Witness for C5 at concrete out-of-range inputs. -/
theorem numeric_clamps_witness :
    (pingRun procStub "8.8.8.8" 1000 99 none).2 =
      some (pingCmd (clampI 1 20 1000) (clampI 1 10 99) none "8.8.8.8",
            clampI 1 20 1000 * clampI 1 10 99 + 5) ∧
    (hping3_probe true procStub "8.8.8.8" "syn" 0 500 none none).2 =
      some (hpingCmd "syn" (clampI 1 65535 0) (clampI 1 100 500) none none "8.8.8.8",
            clampI 1 100 500 * 5 + 10) ∧
    (tracerouteRun procStub "8.8.8.8" 500 3 none).2 =
      some (tracerouteCmd (clampI 1 64 500) 3 none "8.8.8.8", clampI 1 64 500 * 3) ∧
    (traceroute_host (fun _ => ScapyTrOutcome.ok []) procStub "8.8.8.8" 500 true none).scapyCall =
      some (clampI 1 64 500) ∧
    clampI 1 20 1000 = 20 ∧ clampI 1 65535 0 = 1 :=
  ⟨(numeric_clamps.1 procStub "8.8.8.8" 1000 99 none (by decide)).1,
   (numeric_clamps.2.1 procStub "8.8.8.8" "syn" 0 500 none none (by decide)).1,
   (numeric_clamps.2.2.1 procStub "8.8.8.8" 500 3 none (by decide)).1,
   numeric_clamps.2.2.2.1 (fun _ => ScapyTrOutcome.ok []) procStub "8.8.8.8" 500 none (by decide),
   numeric_clamps.2.2.2.2.1, numeric_clamps.2.2.2.2.2⟩

/- ===================== C8 helpers ===================== -/

theorem all_false_of_mem (p : Char → Bool) (l : List Char) (c : Char)
    (hc : c ∈ l) (hp : p c = false) : l.all p = false := by
  cases h : l.all p
  · rfl
  · have := List.all_eq_true.mp h c hc
    rw [hp] at this
    exact absurd this (by simp)

theorem listValid_false (p : Char → Bool) (l : List Char) (c : Char)
    (hc : c ∈ l) (hp : p c = false) : listValid p l = false := by
  simp [listValid, all_false_of_mem p l c hc hp]

/-- No shell metacharacter is accepted by any of the character classes of
the target regexes, nor is one a digit, the CIDR slash, or the newline
that `$` forgives. -/
theorem meta_facts : ∀ c ∈ shellMetachars,
    hostValidChar c = false ∧ nmapValidChar c = false ∧ ipv4Char c = false ∧
    c.isDigit = false ∧ c ≠ '/' ∧ c ≠ Char.ofNat 10 := by decide

/-- Removing the one forgiven trailing newline never removes any other
character. -/
theorem mem_stripTrailingNL (c : Char) (hc : c ≠ Char.ofNat 10) :
    ∀ l, c ∈ l → c ∈ stripTrailingNL l := by
  intro l
  induction l with
  | nil => intro h; cases h
  | cons a rest ih =>
    intro h
    cases rest with
    | nil =>
      have ha : c = a := by simpa using h
      subst ha
      simp [stripTrailingNL, hc]
    | cons b rest2 =>
      rcases List.mem_cons.mp h with h1 | h2
      · subst h1; simp [stripTrailingNL]
      · simp [stripTrailingNL, ih h2]

theorem arpTail_false (c : Char) (hd : c.isDigit = false) (hi : ipv4Char c = false)
    (hs : c ≠ '/') : ∀ l, c ∈ l → arpTail l = false := by
  intro l
  induction l with
  | nil => intro h; cases h
  | cons d rest ih =>
    intro hmem
    rcases List.mem_cons.mp hmem with h | h
    · subst h
      simp [arpTail, hs, hi]
    · by_cases hd2 : d = '/'
      · subst hd2
        simp [arpTail, digitsNonempty, all_false_of_mem Char.isDigit rest c h hd]
      · simp [arpTail, hd2, ih h]

theorem arpCore_false (c : Char) (hd : c.isDigit = false) (hi : ipv4Char c = false)
    (hs : c ≠ '/') : ∀ l, c ∈ l → arpCore l = false := by
  intro l hmem
  cases l with
  | nil => cases hmem
  | cons d rest =>
    rcases List.mem_cons.mp hmem with h | h
    · subst h
      simp [arpCore, hi]
    · simp [arpCore, arpTail_false c hd hi hs rest h]

/-- Fidelity of the validator models to Python `re`: a single trailing
newline is accepted by all four target regexes (as `$` matches before it),
while a doubled trailing newline, or a newline anywhere else, is not. -/
theorem validators_accept_single_trailing_newline :
    hostTargetValid "abc\n" = true ∧ nmapTargetValid "10.0.0.0/8\n" = true ∧
    ipv4Valid "1.2.3.4\n" = true ∧ arpNetworkValid "1.2.3.0/24\n" = true ∧
    hostTargetValid "abc\n\n" = false ∧ hostTargetValid "ab\nc" = false ∧
    hostTargetValid "\n" = false := by decide

/- ===================== C8 ===================== -/

/-- C8 (amended): a target containing a shell metacharacter fails every
target regex of network_tools.py, and every adapter that validates its
target — reachability probe, path discovery (both branches), advanced
probe, port/service scan, quick TCP scan, local-network discovery —
returns its descriptive failure text without raising and without invoking
the external process or socket primitive.  (The DNS adapter performs no
target validation; see the counterexample.) -/
theorem target_validator_rejects_metachars :
    (∀ (c : Char) (t : String), c ∈ shellMetachars → c ∈ t.toList →
      hostTargetValid t = false ∧ nmapTargetValid t = false ∧
      ipv4Valid t = false ∧ arpNetworkValid t = false) ∧
    (∀ (env : ProcEnv) (t : String) (c tmo : Int) (a : Option String),
      hostTargetValid t = false →
      pingRun env t c tmo a = (⟨false, t, "Invalid target format"⟩, none) ∧
      ping_host env t c tmo a = ("Ping failed: Invalid target format", none) ∧
      tracerouteRun env t c tmo a = (⟨false, t, "Invalid target"⟩, none)) ∧
    (∀ (stc : Int → ScapyTrOutcome) (env : ProcEnv) (t : String) (hops : Int)
        (us : Bool) (a : Option String), hostTargetValid t = false →
      traceroute_host stc env t hops us a = ⟨"Invalid target format", none, none⟩) ∧
    (∀ (env : ProcEnv) (t m : String) (p c : Int) (f a : Option String),
      hostTargetValid t = false →
      hping3_probe true env t m p c f a = ("Invalid target format", none)) ∧
    (∀ (env : ProcEnv) (t st : String) (po a : Option String),
      nmapTargetValid t = false →
      nmap_scan_direct true env t st po a = (⟨false, t, st, "Invalid target format"⟩, none) ∧
      nmap_scan true env t st po a = ("NMAP failed: " ++ "Invalid target format", none)) ∧
    (∀ (sr : Int → QSrOutcome) (t ports : String), ipv4Valid t = false →
      quick_port_scan sr t ports = ("Invalid IP address format", [])) ∧
    (∀ (srp : String → ArpOutcome) (n : String), arpNetworkValid n = false →
      arp_scan srp n =
        ("Invalid network format. Use CIDR notation like " ++ pyQuote "192.168.1.0/24", false)) := by
  refine ⟨?_, ?_, ?_, ?_, ?_, ?_, ?_⟩
  · intro c t hm ht
    obtain ⟨h1, h2, h3, hd, hs, hnl⟩ := meta_facts c hm
    have hmem := mem_stripTrailingNL c hnl t.toList ht
    exact ⟨listValid_false hostValidChar (stripTrailingNL t.toList) c hmem h1,
           listValid_false nmapValidChar (stripTrailingNL t.toList) c hmem h2,
           listValid_false ipv4Char (stripTrailingNL t.toList) c hmem h3,
           arpCore_false c hd h3 hs (stripTrailingNL t.toList) hmem⟩
  · intro env t c tmo a hv
    exact ⟨by simp [pingRun, hv], by simp [ping_host, pingRun, hv], by simp [tracerouteRun, hv]⟩
  · intro stc env t hops us a hv
    simp [traceroute_host, hv]
  · intro env t m p c f a hv
    simp [hping3_probe, hv]
  · intro env t st po a hv
    exact ⟨by simp [nmap_scan_direct, hv], by simp [nmap_scan, nmap_scan_direct, hv]⟩
  · intro sr t ports hv
    simp [quick_port_scan, hv]
  · intro srp n hv
    simp [arp_scan, hv]

/-- Witness for C8 at the concrete target `"; rm -rf /"`. -/
theorem target_validator_rejects_metachars_witness :
    hostTargetValid "; rm -rf /" = false ∧
    pingRun procStub "; rm -rf /" 4 2 none =
      (⟨false, "; rm -rf /", "Invalid target format"⟩, none) ∧
    hping3_probe true procStub "; rm -rf /" "syn" 80 4 none none =
      ("Invalid target format", none) ∧
    nmap_scan_direct true procStub "; rm -rf /" "basic" none none =
      (⟨false, "; rm -rf /", "basic", "Invalid target format"⟩, none) ∧
    quick_port_scan (fun _ => QSrOutcome.unanswered) "; rm -rf /" "22,80" =
      ("Invalid IP address format", []) ∧
    arp_scan (fun _ => ArpOutcome.answered []) "; rm -rf /" =
      ("Invalid network format. Use CIDR notation like " ++ pyQuote "192.168.1.0/24", false) := by
  have hall := target_validator_rejects_metachars.1 ';' "; rm -rf /" (by decide) (by decide)
  exact ⟨hall.1,
    (target_validator_rejects_metachars.2.1 procStub "; rm -rf /" 4 2 none hall.1).1,
    target_validator_rejects_metachars.2.2.2.1 procStub "; rm -rf /" "syn" 80 4 none none hall.1,
    (target_validator_rejects_metachars.2.2.2.2.1 procStub "; rm -rf /" "basic" none none
      hall.2.1).1,
    target_validator_rejects_metachars.2.2.2.2.2.1 (fun _ => QSrOutcome.unanswered)
      "; rm -rf /" "22,80" hall.2.2.1,
    target_validator_rejects_metachars.2.2.2.2.2.2 (fun _ => ArpOutcome.answered [])
      "; rm -rf /" hall.2.2.2⟩

/-- The resolver behaviour of the C8 counterexample: resolution of any
name raises. -/
def dnsEnvStub : DnsEnv :=
  ⟨fun _ _ => ResolveOutcome.raised "invalid name", fun _ => none, true⟩

/-- Counterexample to C8 as stated: `dns_lookup_tool` is a tool adapter,
yet a target containing shell metacharacters is never rejected by any
Target Validator — the raw target is passed straight to the resolver (the
recorded resolve-call list is nonempty and carries the unvalidated
string), and the returned text is the resolver's error, not a validation
failure. -/
theorem target_validator_rejects_metachars_cex :
    (';' ∈ ("; rm -rf /").toList) ∧
    (dns_lookup_tool dnsEnvStub "; rm -rf /" "A").2 = [("; rm -rf /", "A")] ∧
    (dns_lookup_tool dnsEnvStub "; rm -rf /" "A").1 =
      "DNS Lookup Results for: ; rm -rf /" ++ "\n" ++ String.mk (List.replicate 50 '=') ++
        "\n" ++ "\n[A Records]" ++ "\n" ++ "  Error: invalid name" :=
  ⟨by decide, rfl, rfl⟩
